import Mathlib

/-!
Verification of the Nepali date converter client examples
(requests_example.py) against their specification.

The module is a thin HTTP client: every function builds a URL from a
(year, month, day) triple and a conversion direction, performs a GET,
and inspects a JSON envelope with fields success / result / error.
Network behaviour is modelled by an oracle supplied to each function:
for the retry loop an oracle mapping the attempt number to a response,
for the cache and the batch driver an oracle mapping the request to a
response.  Each embedded function additionally returns the observable
effects the claims speak about (number of attempts, list of sleep
durations, event trace), so that temporal claims become statements
about pure values.
-/

/-- The converted date dictionary the API returns in its result field:
keys year, month, day. -/
structure DateDict where
  year : Nat
  month : Nat
  day : Nat
deriving DecidableEq, Repr

/-- Outcome of one HTTP request as the Python code observes it:
either the parsed JSON has success true with a result (ok), or
success false with an error message (apiError, still HTTP 200), or
requests raised a RequestException, which includes Timeout and the
raise_for_status errors (reqException). -/
inductive ApiResponse where
  | ok (result : DateDict)
  | apiError (msg : String)
  | reqException (msg : String)
deriving DecidableEq, Repr

/-- A response that is not a success, of either failure kind. -/
def ApiResponse.isFailure : ApiResponse → Bool
  | .ok _ => false
  | .apiError _ => true
  | .reqException _ => true

/-- A transport-level failure: requests raised a RequestException. -/
def ApiResponse.isException : ApiResponse → Bool
  | .reqException _ => true
  | _ => false

/-- A semantic failure: HTTP 200 but success false in the body. -/
def ApiResponse.isApiError : ApiResponse → Bool
  | .apiError _ => true
  | _ => false

/-- The loop body of convert_with_retry.  The Python loop is
for attempt in range(1, max_retries + 1); fuel counts the remaining
iterations of that range (initially max_retries), attempt is the loop
variable.  On success the loop returns data[result].  On a success
false body the code only prints and falls through to the next
iteration (no sleep).  On a RequestException it sleeps 2 ** attempt
seconds when attempt < max_retries and otherwise returns None.
The value is (number of attempts made, list of sleep durations in
order, returned result). -/
def retryLoop (oracle : Nat → ApiResponse) (max_retries : Nat) :
    Nat → Nat → Nat → List Nat → Nat × List Nat × Option DateDict
  | 0, _, attempts, sleeps => (attempts, sleeps, none)
  | fuel + 1, attempt, attempts, sleeps =>
      match oracle attempt with
      | .ok r => (attempts + 1, sleeps, some r)
      | .apiError _ => retryLoop oracle max_retries fuel (attempt + 1) (attempts + 1) sleeps
      | .reqException _ =>
          if attempt < max_retries then
            retryLoop oracle max_retries fuel (attempt + 1) (attempts + 1)
              (sleeps ++ [2 ^ attempt])
          else (attempts + 1, sleeps, none)

/-- convert_with_retry from the source: run the loop body over
attempt = 1, ..., max_retries; when the loop ends without a success
the function returns None.  The oracle gives the response of each
attempt. -/
def convert_with_retry (oracle : Nat → ApiResponse) (max_retries : Nat) :
    Nat × List Nat × Option DateDict :=
  retryLoop oracle max_retries max_retries 1 0 []

/-- The delays the spec claims for max_retries = N:
2, 4, ..., 2 ^ (N - 1). -/
def backoffDelays (N : Nat) : List Nat :=
  (List.range (N - 1)).map (fun i => 2 ^ (i + 1))

/-- An oracle whose every attempt fails with a success false body. -/
def failAllApiError : Nat → ApiResponse :=
  fun _ => ApiResponse.apiError "invalid date"

/-- An oracle whose every attempt fails with a RequestException. -/
def failAllException : Nat → ApiResponse :=
  fun _ => ApiResponse.reqException "connection error"

theorem rangeMapPow (a n : Nat) :
    (List.range (n + 1)).map (fun j => 2 ^ (a + j)) =
      2 ^ a :: (List.range n).map (fun j => 2 ^ (a + 1 + j)) := by
  rw [List.range_succ_eq_map, List.map_cons, List.map_map]
  refine congrArg₂ _ (by rw [Nat.add_zero]) ?_
  refine List.map_congr_left (fun j _ => ?_)
  simp only [Function.comp_apply, Nat.succ_eq_add_one]
  congr 1
  omega

theorem retryLoop_allException (oracle : Nat → ApiResponse)
    (hExc : ∀ i, (oracle i).isException = true) (max_retries : Nat) :
    ∀ fuel attempt attempts sleeps, 1 ≤ fuel →
      attempt + fuel = max_retries + 1 →
      retryLoop oracle max_retries fuel attempt attempts sleeps =
        (attempts + fuel,
         sleeps ++ (List.range (fuel - 1)).map (fun j => 2 ^ (attempt + j)),
         none) := by
  intro fuel
  induction fuel with
  | zero => intro attempt attempts sleeps h1 _; omega
  | succ f ih =>
      intro attempt attempts sleeps _ hinv
      have hExcA := hExc attempt
      cases hOr : oracle attempt with
      | ok r => rw [hOr] at hExcA; simp [ApiResponse.isException] at hExcA
      | apiError m => rw [hOr] at hExcA; simp [ApiResponse.isException] at hExcA
      | reqException m =>
          rw [retryLoop, hOr]
          cases f with
          | zero =>
              have : ¬ attempt < max_retries := by omega
              simp [this]
          | succ f2 =>
              have hlt : attempt < max_retries := by omega
              rw [if_pos hlt, ih (attempt + 1) (attempts + 1) (sleeps ++ [2 ^ attempt])
                (by omega) (by omega)]
              simp only [Nat.add_sub_cancel]
              rw [List.append_assoc, rangeMapPow attempt f2]
              have h1 : attempts + 1 + (f2 + 1) = attempts + (f2 + 1 + 1) := by omega
              rw [h1]
              rfl

theorem retryLoop_allApiError (oracle : Nat → ApiResponse)
    (hApi : ∀ i, (oracle i).isApiError = true) (max_retries : Nat) :
    ∀ fuel attempt attempts sleeps,
      retryLoop oracle max_retries fuel attempt attempts sleeps =
        (attempts + fuel, sleeps, none) := by
  intro fuel
  induction fuel with
  | zero => intro attempt attempts sleeps; rfl
  | succ f ih =>
      intro attempt attempts sleeps
      have hApiA := hApi attempt
      cases hOr : oracle attempt with
      | ok r => rw [hOr] at hApiA; simp [ApiResponse.isApiError] at hApiA
      | reqException m => rw [hOr] at hApiA; simp [ApiResponse.isApiError] at hApiA
      | apiError m =>
          rw [retryLoop, hOr, ih (attempt + 1) (attempts + 1) sleeps]
          have h1 : attempts + 1 + f = attempts + (f + 1) := by omega
          rw [h1]

theorem retryLoop_allFail (oracle : Nat → ApiResponse)
    (hFail : ∀ i, (oracle i).isFailure = true) (max_retries : Nat) :
    ∀ fuel attempt attempts sleeps,
      attempt + fuel = max_retries + 1 →
      (retryLoop oracle max_retries fuel attempt attempts sleeps).1 =
        attempts + fuel ∧
      (retryLoop oracle max_retries fuel attempt attempts sleeps).2.2 = none := by
  intro fuel
  induction fuel with
  | zero => intro attempt attempts sleeps _; exact ⟨rfl, rfl⟩
  | succ f ih =>
      intro attempt attempts sleeps hinv
      have hFailA := hFail attempt
      cases hOr : oracle attempt with
      | ok r => rw [hOr] at hFailA; simp [ApiResponse.isFailure] at hFailA
      | apiError m =>
          rw [retryLoop, hOr]
          have := ih (attempt + 1) (attempts + 1) sleeps (by omega)
          exact ⟨by rw [this.1]; omega, this.2⟩
      | reqException m =>
          rw [retryLoop, hOr]
          by_cases hlt : attempt < max_retries
          · rw [if_pos hlt]
            have := ih (attempt + 1) (attempts + 1) (sleeps ++ [2 ^ attempt]) (by omega)
            exact ⟨by rw [this.1]; omega, this.2⟩
          · rw [if_neg hlt]
            refine ⟨?_, rfl⟩
            show attempts + 1 = attempts + (f + 1)
            omega

/-- C1: as stated the claim is wrong: when every attempt fails with a
success false body (an ApiError), the code retries with NO sleep at
all; with max_retries = 2 the sleep list is empty where the claim
demands the single delay 2.  This exhibits it at that concrete
input. -/
theorem c1_retry_backoff_counterexample :
    (failAllApiError 1).isFailure = true ∧
    (convert_with_retry failAllApiError 2).2.1 = [] ∧
    backoffDelays 2 = [2] :=
  ⟨rfl, rfl, rfl⟩

/-- C1 (amended): for every N >= 1 and a primitive whose every
attempt fails, convert_with_retry performs exactly N attempts and
surfaces None, the terminal failure value.  The delays 2, 4, ...,
2 ^ (N - 1) occur between consecutive attempts when the attempts fail
with RequestExceptions; attempts failing with ApiError (success false
body) are retried immediately, with no delay. -/
theorem c1_retry_bound (oracle : Nat → ApiResponse) (N : Nat) (hN : 1 ≤ N)
    (hFail : ∀ i, (oracle i).isFailure = true) :
    (convert_with_retry oracle N).1 = N ∧
    (convert_with_retry oracle N).2.2 = none ∧
    ((∀ i, (oracle i).isException = true) →
      (convert_with_retry oracle N).2.1 = backoffDelays N) ∧
    ((∀ i, (oracle i).isApiError = true) →
      (convert_with_retry oracle N).2.1 = []) := by
  have hAll := retryLoop_allFail oracle hFail N N 1 0 [] (by omega)
  refine ⟨?_, ?_, ?_, ?_⟩
  · rw [convert_with_retry, hAll.1]
    omega
  · rw [convert_with_retry, hAll.2]
  · intro hExc
    rw [convert_with_retry,
      retryLoop_allException oracle hExc N N 1 0 [] (by omega) (by omega)]
    show (List.range (N - 1)).map (fun j => 2 ^ (1 + j)) = backoffDelays N
    rw [backoffDelays]
    refine List.map_congr_left (fun j _ => ?_)
    congr 1
    omega
  · intro hApi
    rw [convert_with_retry, retryLoop_allApiError oracle hApi N N 1 0 []]

/-- Witness for c1_retry_bound at oracle failAllException, N = 3:
three attempts, sleeps 2 and 4, result None. -/
theorem c1_retry_bound_witness :
    1 ≤ 3 ∧ (∀ i, (failAllException i).isFailure = true) ∧
    ((convert_with_retry failAllException 3).1 = 3 ∧
     (convert_with_retry failAllException 3).2.2 = none ∧
     ((∀ i, (failAllException i).isException = true) →
       (convert_with_retry failAllException 3).2.1 = backoffDelays 3) ∧
     ((∀ i, (failAllException i).isApiError = true) →
       (convert_with_retry failAllException 3).2.1 = [])) :=
  ⟨by decide, fun _ => rfl, c1_retry_bound failAllException 3 (by decide) (fun _ => rfl)⟩

/-- C2: the claim is wrong: with max_retries = 0 the Python loop
for attempt in range(1, 0 + 1) has an empty range, so the body never
runs: zero attempts are made, not one. -/
theorem c2_zero_retries_counterexample :
    (convert_with_retry failAllException 0).1 = 0 ∧ (0 : Nat) ≠ 1 :=
  ⟨rfl, by decide⟩

/-- C2 (amended): with max_retries = 0, convert_with_retry makes no
attempt at all, sleeps never, and returns None, whatever the
primitive would have answered. -/
theorem c2_zero_retries_no_attempt (oracle : Nat → ApiResponse) :
    convert_with_retry oracle 0 = (0, [], none) := rfl

/-- The _generate_key method of DateConverterCache:
the string conv_type-year-month-day. -/
def generate_key (year month day : Nat) (conv_type : String) : String :=
  conv_type ++ "-" ++ toString year ++ "-" ++ toString month ++ "-" ++ toString day

/-- The URL every converter function builds for a request. -/
def urlFor (conversion_type : String) (year month day : Nat) : String :=
  "https://sudhanparajuli.com.np/api/" ++ conversion_type ++ "/" ++
    toString year ++ "/" ++ toString month ++ "/" ++ toString day

/-- The cache field of a DateConverterCache instance, a mapping from
key strings to results; the head of the list is the most recent
insertion and List.lookup is the dict lookup. -/
def DateConverterCache := List (String × DateDict)

/-- DateConverterCache.convert.  The network is an oracle from the
request URL to a response.  Returns (the value the method returns,
the cache after the call, how many network calls were made).  The
method first looks the key up and returns the stored result on a hit;
on a miss it performs the GET, stores the result only when the body
has success true, and returns None on either failure kind without
touching the cache. -/
def DateConverterCache.convert (net : String → ApiResponse)
    (cache : DateConverterCache) (year month day : Nat)
    (conversion_type : String) :
    Option DateDict × DateConverterCache × Nat :=
  let key := generate_key year month day conversion_type
  match List.lookup key cache with
  | some v => (some v, cache, 0)
  | none =>
      match net (urlFor conversion_type year month day) with
      | .ok r => (some r, (key, r) :: cache, 1)
      | .apiError _ => (none, cache, 1)
      | .reqException _ => (none, cache, 1)

/-- A network oracle that always answers success with a fixed result. -/
def netAlwaysOk : String → ApiResponse :=
  fun _ => ApiResponse.ok ⟨2081, 6, 29⟩

/-- A network oracle that always answers with a success false body. -/
def netAlwaysApiError : String → ApiResponse :=
  fun _ => ApiResponse.apiError "invalid date"

/-- C3: on a cache whose mapping does not yet hold the key, a first
convert call that succeeds performs exactly one network call and
stores the result; the second call with the identical arguments hits
the mapping, returns the stored result and performs zero network
calls, so exactly one network call happens in total. -/
theorem c3_cache_idempotent (net : String → ApiResponse)
    (cache : DateConverterCache) (year month day : Nat)
    (conversion_type : String) (r : DateDict)
    (hMiss : List.lookup (generate_key year month day conversion_type) cache = none)
    (hOk : net (urlFor conversion_type year month day) = ApiResponse.ok r) :
    DateConverterCache.convert net cache year month day conversion_type =
      (some r, (generate_key year month day conversion_type, r) :: cache, 1) ∧
    DateConverterCache.convert net
        ((generate_key year month day conversion_type, r) :: cache)
        year month day conversion_type =
      (some r, (generate_key year month day conversion_type, r) :: cache, 0) := by
  constructor
  · rw [DateConverterCache.convert]
    simp only [hMiss, hOk]
  · rw [DateConverterCache.convert]
    simp [List.lookup]

/-- Witness for c3_cache_idempotent: fresh cache, netAlwaysOk,
converting 2024-10-15 in direction ad-to-bs. -/
theorem c3_cache_idempotent_witness :
    List.lookup (generate_key 2024 10 15 "ad-to-bs") ([] : DateConverterCache) = none ∧
    netAlwaysOk (urlFor "ad-to-bs" 2024 10 15) = ApiResponse.ok ⟨2081, 6, 29⟩ ∧
    (DateConverterCache.convert netAlwaysOk [] 2024 10 15 "ad-to-bs" =
      (some ⟨2081, 6, 29⟩, [(generate_key 2024 10 15 "ad-to-bs", ⟨2081, 6, 29⟩)], 1) ∧
     DateConverterCache.convert netAlwaysOk
        [(generate_key 2024 10 15 "ad-to-bs", ⟨2081, 6, 29⟩)] 2024 10 15 "ad-to-bs" =
      (some ⟨2081, 6, 29⟩, [(generate_key 2024 10 15 "ad-to-bs", ⟨2081, 6, 29⟩)], 0)) :=
  ⟨rfl, rfl, c3_cache_idempotent netAlwaysOk [] 2024 10 15 "ad-to-bs" ⟨2081, 6, 29⟩ rfl rfl⟩

/-- C4: a convert call that returns None leaves the cache exactly as
it was, and if the key was absent before, a subsequent call with the
same arguments performs a fresh network call (rather than hitting a
stored failure). -/
theorem c4_failures_not_cached (net : String → ApiResponse)
    (cache : DateConverterCache) (year month day : Nat)
    (conversion_type : String)
    (hFail : (DateConverterCache.convert net cache year month day conversion_type).1 = none) :
    (DateConverterCache.convert net cache year month day conversion_type).2.1 = cache ∧
    (List.lookup (generate_key year month day conversion_type) cache = none →
      (DateConverterCache.convert net
        ((DateConverterCache.convert net cache year month day conversion_type).2.1)
        year month day conversion_type).2.2 = 1) := by
  rw [DateConverterCache.convert] at hFail ⊢
  cases hMiss : List.lookup (generate_key year month day conversion_type) cache with
  | some v =>
      rw [hMiss] at hFail
      exact Option.noConfusion hFail
  | none =>
      cases hNet : net (urlFor conversion_type year month day) with
      | ok r =>
          rw [hMiss, hNet] at hFail
          exact Option.noConfusion hFail
      | apiError m =>
          refine ⟨rfl, fun _ => ?_⟩
          show (DateConverterCache.convert net cache year month day conversion_type).2.2 = 1
          rw [DateConverterCache.convert]
          simp only [hMiss, hNet]
      | reqException m =>
          refine ⟨rfl, fun _ => ?_⟩
          show (DateConverterCache.convert net cache year month day conversion_type).2.2 = 1
          rw [DateConverterCache.convert]
          simp only [hMiss, hNet]

/-- Witness for c4_failures_not_cached: fresh cache and a network
that always answers success false; the failed call leaves the cache
empty and the repeat call goes to the network again. -/
theorem c4_failures_not_cached_witness :
    (DateConverterCache.convert netAlwaysApiError [] 2024 10 15 "ad-to-bs").1 = none ∧
    ((DateConverterCache.convert netAlwaysApiError [] 2024 10 15 "ad-to-bs").2.1 = [] ∧
     (List.lookup (generate_key 2024 10 15 "ad-to-bs") ([] : DateConverterCache) = none →
       (DateConverterCache.convert netAlwaysApiError
         ((DateConverterCache.convert netAlwaysApiError [] 2024 10 15 "ad-to-bs").2.1)
         2024 10 15 "ad-to-bs").2.2 = 1)) :=
  ⟨rfl, c4_failures_not_cached netAlwaysApiError [] 2024 10 15 "ad-to-bs" rfl⟩

/-- One entry of the list convert_batch_dates returns: either
a dict with keys input, output, success = True, or a dict with keys
input, error, success = False. -/
inductive BatchOutcome where
  | success (input : Nat × Nat × Nat) (output : DateDict)
  | failure (input : Nat × Nat × Nat) (error : String)
deriving DecidableEq, Repr

/-- The input field of a batch outcome dict. -/
def BatchOutcome.input : BatchOutcome → Nat × Nat × Nat
  | .success i _ => i
  | .failure i _ => i

/-- The success field of a batch outcome dict. -/
def BatchOutcome.isSuccess : BatchOutcome → Bool
  | .success _ _ => true
  | .failure _ _ => false

/-- An observable step of the batch loop: a network call for one
date, or the time.sleep(delay) call. -/
inductive BatchEvent where
  | netCall (year month day : Nat)
  | sleep
deriving DecidableEq, Repr

/-- What one iteration of the convert_batch_dates loop appends for
the date (year, month, day): the success dict when the body has
success true, the error dict with the body's error on success false,
and the error dict with str(e) on a RequestException. -/
def outcomeFor (net : String → ApiResponse) (conversion_type : String)
    (t : Nat × Nat × Nat) : BatchOutcome :=
  match net (urlFor conversion_type t.1 t.2.1 t.2.2) with
  | .ok r => BatchOutcome.success t r
  | .apiError e => BatchOutcome.failure t e
  | .reqException e => BatchOutcome.failure t e

/-- convert_batch_dates from the source: for every (year, month, day)
in the list, in order, perform the GET, append the outcome dict to
results, then time.sleep(delay); finally return results.  The value
is (the results list, the trace of network calls and sleeps in the
order they happen). -/
def convert_batch_dates (net : String → ApiResponse) (conversion_type : String) :
    List (Nat × Nat × Nat) → List BatchOutcome × List BatchEvent
  | [] => ([], [])
  | (year, month, day) :: rest =>
      let outcome :=
        match net (urlFor conversion_type year month day) with
        | .ok r => BatchOutcome.success (year, month, day) r
        | .apiError e => BatchOutcome.failure (year, month, day) e
        | .reqException e => BatchOutcome.failure (year, month, day) e
      let next := convert_batch_dates net conversion_type rest
      (outcome :: next.1,
       BatchEvent.netCall year month day :: BatchEvent.sleep :: next.2)

theorem outcomeFor_input (net : String → ApiResponse) (conversion_type : String)
    (t : Nat × Nat × Nat) : (outcomeFor net conversion_type t).input = t := by
  rw [outcomeFor]
  cases net (urlFor conversion_type t.1 t.2.1 t.2.2) <;> rfl

theorem convert_batch_dates_results (net : String → ApiResponse)
    (conversion_type : String) (dates : List (Nat × Nat × Nat)) :
    (convert_batch_dates net conversion_type dates).1 =
      dates.map (outcomeFor net conversion_type) := by
  induction dates with
  | nil => rfl
  | cons t rest ih =>
      obtain ⟨year, month, day⟩ := t
      rw [convert_batch_dates, List.map_cons]
      refine congrArg₂ _ ?_ ih
      rw [outcomeFor]

theorem convert_batch_dates_trace (net : String → ApiResponse)
    (conversion_type : String) (dates : List (Nat × Nat × Nat)) :
    (convert_batch_dates net conversion_type dates).2 =
      dates.flatMap
        (fun t => [BatchEvent.netCall t.1 t.2.1 t.2.2, BatchEvent.sleep]) := by
  induction dates with
  | nil => rfl
  | cons t rest ih =>
      obtain ⟨year, month, day⟩ := t
      rw [convert_batch_dates, List.flatMap_cons]
      exact congrArg₂ _ rfl (congrArg₂ _ rfl ih)

/-- C5: the batch driver returns one outcome per input, in input
order: the result list is exactly the input list mapped through the
per-item outcome (so no failure ever aborts the batch), it has the
same length as the input, the i-th outcome carries the i-th input in
its input field, and an outcome has success true exactly when the
response body for its own date had success true. -/
theorem c5_batch_ordering_isolation (net : String → ApiResponse)
    (conversion_type : String) (dates : List (Nat × Nat × Nat)) :
    (convert_batch_dates net conversion_type dates).1 =
      dates.map (outcomeFor net conversion_type) ∧
    (convert_batch_dates net conversion_type dates).1.length = dates.length ∧
    (∀ i : Nat, ((convert_batch_dates net conversion_type dates).1[i]?).map
        BatchOutcome.input = dates[i]?) ∧
    (∀ i : Nat, ((convert_batch_dates net conversion_type dates).1[i]?).map
        BatchOutcome.isSuccess =
      (dates[i]?).map
        (fun t : Nat × Nat × Nat =>
          !(net (urlFor conversion_type t.1 t.2.1 t.2.2)).isFailure)) := by
  have hres := convert_batch_dates_results net conversion_type dates
  refine ⟨hres, ?_, ?_, ?_⟩
  · rw [hres, List.length_map]
  · intro i
    rw [hres, List.getElem?_map]
    cases h : dates[i]? with
    | none => rfl
    | some t => simp [outcomeFor_input]
  · intro i
    rw [hres, List.getElem?_map]
    cases h : dates[i]? with
    | none => rfl
    | some t =>
        show some (outcomeFor net conversion_type t).isSuccess =
          some (!(net (urlFor conversion_type t.1 t.2.1 t.2.2)).isFailure)
        refine congrArg _ ?_
        rw [outcomeFor]
        cases net (urlFor conversion_type t.1 t.2.1 t.2.2) <;> rfl

/-- A network oracle answering success for every URL, used to exhibit
the trace of a one-element batch. -/
def netOkEverywhere : String → ApiResponse :=
  fun _ => ApiResponse.ok ⟨2081, 6, 29⟩

/-- C6: the claim is wrong: time.sleep(delay) runs at the end of
every loop iteration, including the last one, so a one-element batch
already sleeps once, after its only network call, where the claim
says no delay happens after the last call. -/
theorem c6_delay_counterexample :
    (convert_batch_dates netOkEverywhere "ad-to-bs" [(2024, 10, 15)]).2 =
      [BatchEvent.netCall 2024 10 15, BatchEvent.sleep] ∧
    ((convert_batch_dates netOkEverywhere "ad-to-bs" [(2024, 10, 15)]).2).getLast? =
      some BatchEvent.sleep :=
  ⟨rfl, rfl⟩

/-- C6 (amended): the trace of the batch is exactly one network call
followed by one sleep for every input in order: no delay before the
first call, exactly one delay between consecutive calls, and one
final delay after the last call. -/
theorem c6_delay_after_every_call (net : String → ApiResponse)
    (conversion_type : String) (dates : List (Nat × Nat × Nat)) :
    (convert_batch_dates net conversion_type dates).2 =
      dates.flatMap
        (fun t => [BatchEvent.netCall t.1 t.2.1 t.2.2, BatchEvent.sleep]) :=
  convert_batch_dates_trace net conversion_type dates

/-- The Gregorian leap year rule Python's datetime uses:
divisible by 4 and not by 100, or divisible by 400. -/
def isLeapYear (year : Int) : Bool :=
  (year % 4 == 0 && year % 100 != 0) || year % 400 == 0

/-- Number of days of a Gregorian month, as datetime counts them. -/
def daysInMonth (year month : Int) : Int :=
  if month = 2 then (if isLeapYear year then 29 else 28)
  else if month = 4 ∨ month = 6 ∨ month = 9 ∨ month = 11 then 30
  else 31

/-- Whether the Python expression datetime(year, month, day) succeeds
rather than raising ValueError: datetime requires
MINYEAR = 1 <= year <= MAXYEAR = 9999, 1 <= month <= 12 and
1 <= day <= number of days of that month. -/
def datetimeValid (year month day : Int) : Bool :=
  decide (1 ≤ year ∧ year ≤ 9999) && decide (1 ≤ month ∧ month ≤ 12) &&
    decide (1 ≤ day ∧ day ≤ daysInMonth year month)

/-- is_valid_ad_date from the source: three range guards that return
False early, then the datetime constructor check. -/
def is_valid_ad_date (year month day : Int) : Bool :=
  if ¬(1943 ≤ year ∧ year ≤ 2042) then false
  else if ¬(1 ≤ month ∧ month ≤ 12) then false
  else if ¬(1 ≤ day ∧ day ≤ 31) then false
  else datetimeValid year month day

/-- is_valid_bs_date from the source: three range guards that return
False early, then True with no per-month day-count check. -/
def is_valid_bs_date (year month day : Int) : Bool :=
  if ¬(2000 ≤ year ∧ year ≤ 2099) then false
  else if ¬(1 ≤ month ∧ month ≤ 12) then false
  else if ¬(1 ≤ day ∧ day ≤ 32) then false
  else true

theorem daysInMonth_le (year month : Int) : daysInMonth year month ≤ 31 := by
  rw [daysInMonth]
  split_ifs <;> norm_num

/-- C7: is_valid_ad_date accepts exactly the triples inside the
ranges 1943-2042, 1-12, 1-31 that form a real Gregorian date (the
day does not exceed the month's day count); the sample impossible
combinations month 13, day 31 in April, and Feb 29 of a non-leap
year are rejected, Feb 29 of a leap year accepted. -/
theorem c7_ad_validator :
    (∀ year month day : Int, is_valid_ad_date year month day = true ↔
      (1943 ≤ year ∧ year ≤ 2042 ∧ 1 ≤ month ∧ month ≤ 12 ∧
       1 ≤ day ∧ day ≤ daysInMonth year month)) ∧
    is_valid_ad_date 2024 13 1 = false ∧
    is_valid_ad_date 2024 4 31 = false ∧
    is_valid_ad_date 2023 2 29 = false ∧
    is_valid_ad_date 2024 2 29 = true ∧
    is_valid_ad_date 1942 5 10 = false ∧
    is_valid_ad_date 2043 5 10 = false := by
  refine ⟨?_, by decide, by decide, by decide, by decide, by decide, by decide⟩
  intro year month day
  have hd := daysInMonth_le year month
  rw [is_valid_ad_date, datetimeValid]
  by_cases hy : 1943 ≤ year ∧ year ≤ 2042
  · rw [if_neg (not_not_intro hy)]
    by_cases hm : 1 ≤ month ∧ month ≤ 12
    · rw [if_neg (not_not_intro hm)]
      by_cases hday : 1 ≤ day ∧ day ≤ 31
      · rw [if_neg (not_not_intro hday)]
        simp only [Bool.and_eq_true, decide_eq_true_eq]
        constructor
        · intro h
          omega
        · intro h
          omega
      · rw [if_pos hday]
        exact ⟨fun h => Bool.noConfusion h,
          fun hR => absurd ⟨hR.2.2.2.2.1, by omega⟩ hday⟩
    · rw [if_pos hm]
      exact ⟨fun h => Bool.noConfusion h,
        fun hR => absurd ⟨hR.2.2.1, hR.2.2.2.1⟩ hm⟩
  · rw [if_pos hy]
    exact ⟨fun h => Bool.noConfusion h, fun hR => absurd ⟨hR.1, hR.2.1⟩ hy⟩

/-- C8: is_valid_bs_date accepts exactly the triples inside the
ranges 2000-2099, 1-12, 1-32, with no per-month day-count check: in
particular day 32 is accepted for every month in range, including
month 2. -/
theorem c8_bs_validator :
    (∀ year month day : Int, is_valid_bs_date year month day = true ↔
      (2000 ≤ year ∧ year ≤ 2099 ∧ 1 ≤ month ∧ month ≤ 12 ∧
       1 ≤ day ∧ day ≤ 32)) ∧
    is_valid_bs_date 2081 2 32 = true ∧
    is_valid_bs_date 2081 11 32 = true ∧
    is_valid_bs_date 1999 1 1 = false ∧
    is_valid_bs_date 2100 1 1 = false ∧
    is_valid_bs_date 2081 13 1 = false ∧
    is_valid_bs_date 2081 1 33 = false := by
  refine ⟨?_, by decide, by decide, by decide, by decide, by decide, by decide⟩
  intro year month day
  rw [is_valid_bs_date]
  by_cases hy : 2000 ≤ year ∧ year ≤ 2099
  · rw [if_neg (not_not_intro hy)]
    by_cases hm : 1 ≤ month ∧ month ≤ 12
    · rw [if_neg (not_not_intro hm)]
      by_cases hday : 1 ≤ day ∧ day ≤ 32
      · rw [if_neg (not_not_intro hday)]
        simp only [true_iff]
        omega
      · rw [if_pos hday]
        exact ⟨fun h => Bool.noConfusion h,
          fun hR => absurd ⟨hR.2.2.2.2.1, hR.2.2.2.2.2⟩ hday⟩
    · rw [if_pos hm]
      exact ⟨fun h => Bool.noConfusion h,
        fun hR => absurd ⟨hR.2.2.1, hR.2.2.2.1⟩ hm⟩
  · rw [if_pos hy]
    exact ⟨fun h => Bool.noConfusion h, fun hR => absurd ⟨hR.1, hR.2.1⟩ hy⟩

/-- Whether the first list is an initial segment of the second,
character by character. -/
def headMatches : List Char → List Char → Bool
  | [], _ => true
  | _ :: _, [] => false
  | p :: ps, c :: cs => p == c && headMatches ps cs

/-- Left-to-right, non-overlapping replacement of a non-empty pattern
p by r, the semantics of Python str.replace on the character list.
The fuel argument bounds the number of steps; since the pattern is
non-empty, every step consumes at least one character, so fuel equal
to the length of the scanned list gives the full replacement. -/
def replaceAux (p r : List Char) : Nat → List Char → List Char
  | _, [] => []
  | 0, l => l
  | fuel + 1, c :: cs =>
      if headMatches p (c :: cs) then
        r ++ replaceAux p r fuel ((c :: cs).drop p.length)
      else c :: replaceAux p r fuel cs

/-- Python str.replace(pattern, replacement), replacing every
non-overlapping occurrence from the left.  The source only calls it
with the non-empty patterns YYYY, MM and DD; for an empty pattern
this model returns the string unchanged. -/
def strReplace (s pattern replacement : String) : String :=
  if pattern.data.isEmpty then s
  else String.mk (replaceAux pattern.data replacement.data s.data.length s.data)

/-- Python str.zfill(width) on a string of decimal digits: pad with
zeros on the left up to the width. -/
def zfill (s : String) (width : Nat) : String :=
  if width ≤ s.length then s
  else String.mk (List.replicate (width - s.length) '0') ++ s

/-- format_nepali_date from the source.  A falsy date_dict (None or
an empty dict) is modelled as none and yields the empty string before
any field is read; otherwise the year, the zero-filled month and the
zero-filled day replace the placeholders YYYY, MM, DD in the format
string, in that order. -/
def format_nepali_date (date_dict : Option DateDict)
    (format_str : String) : String :=
  match date_dict with
  | none => ""
  | some d =>
      strReplace
        (strReplace (strReplace format_str "YYYY" (toString d.year))
          "MM" (zfill (toString d.month) 2))
        "DD" (zfill (toString d.day) 2)

/-- format_ad_date from the source: it just delegates to
format_nepali_date. -/
def format_ad_date (date_dict : Option DateDict)
    (format_str : String) : String :=
  format_nepali_date date_dict format_str

/-- C9: formatting the dict with year 2081, month 6, day 29 with the
format YYYY/MM/DD yields exactly 2081/06/29, and with DD-MM-YYYY
yields exactly 29-06-2081, the month and day zero-padded to two
digits. -/
theorem c9_format_concrete :
    format_nepali_date (some ⟨2081, 6, 29⟩) "YYYY/MM/DD" = "2081/06/29" ∧
    format_nepali_date (some ⟨2081, 6, 29⟩) "DD-MM-YYYY" = "29-06-2081" :=
  ⟨by decide, by decide⟩

/-- C10: a falsy date_dict yields the empty string for every format
string, without reading any field, and format_ad_date agrees with
format_nepali_date on every input. -/
theorem c10_empty_dict_formatting :
    (∀ format_str : String, format_nepali_date none format_str = "") ∧
    (∀ (date_dict : Option DateDict) (format_str : String),
      format_ad_date date_dict format_str =
        format_nepali_date date_dict format_str) :=
  ⟨fun _ => rfl, fun _ _ => rfl⟩
